import Mathlib

/-!
Verification of the task-management core of this repository: the task
status state machine, the pagination/filter/sort query builders of the
task and user repositories, the query-parameter validation of the DTO
layer, the statistics aggregator, and the Flask task-item service.

Datetimes are modelled as integers (`Int`) with their linear order;
`now` is passed explicitly wherever the code calls `datetime.utcnow()`.
Database collections are modelled as Lean lists in the store's base
order; the SQLAlchemy query pipeline becomes explicit `List.filter`,
sort, drop/take stages in the same order as the code composes them.
-/

deriving instance DecidableEq for Except

namespace PyPoc

/-! ## Task model (`task_management_api/app/models/task.py`) -/

/-- Python `TaskStatus` enumeration from `app/models/task.py`. -/
inductive TaskStatus where
  | pending
  | in_progress
  | completed
  | cancelled
deriving DecidableEq, Repr

/-- The `.value` string of each `TaskStatus` member. -/
def TaskStatus.value : TaskStatus → String
  | .pending => "pending"
  | .in_progress => "in_progress"
  | .completed => "completed"
  | .cancelled => "cancelled"

/-- Python `TaskPriority` enumeration from `app/models/task.py`. -/
inductive TaskPriority where
  | low
  | medium
  | high
  | urgent
deriving DecidableEq, Repr

/-- The `.value` string of each `TaskPriority` member. -/
def TaskPriority.value : TaskPriority → String
  | .low => "low"
  | .medium => "medium"
  | .high => "high"
  | .urgent => "urgent"

/-- The `Task` entity: one column per SQLAlchemy `Column` of
`app/models/task.py`, with `DateTime` columns as `Int` and nullable
columns as `Option`. -/
structure Task where
  id : Int
  title : String
  description : Option String
  status : TaskStatus
  priority : TaskPriority
  created_by : String
  assigned_to : Option String
  created_at : Int
  updated_at : Option Int
  due_date : Option Int
  completed_at : Option Int
  is_deleted : Bool
deriving DecidableEq, Repr

/-- Python `Task.mark_as_completed`: sets status to `completed` and stamps
`completed_at = datetime.utcnow()` unconditionally. -/
def Task.mark_as_completed (t : Task) (now : Int) : Task :=
  { t with status := .completed, completed_at := some now }

/-- Python `Task.assign_to_user`: sets the assignee and, when the current
status is `pending`, moves it to `in_progress`. -/
def Task.assign_to_user (t : Task) (user_id : String) : Task :=
  let t := { t with assigned_to := some user_id }
  if t.status = .pending then { t with status := .in_progress } else t

/-- Python `Task.cancel_task`: sets status to `cancelled`. -/
def Task.cancel_task (t : Task) : Task :=
  { t with status := .cancelled }

/-- Python `Task.is_overdue`: false when `due_date` is unset, otherwise
`due_date < now and status not in [COMPLETED, CANCELLED]`. -/
def Task.is_overdue (t : Task) (now : Int) : Bool :=
  match t.due_date with
  | none => false
  | some d =>
    decide (d < now) && !(decide (t.status = .completed) || decide (t.status = .cancelled))

/-- Python `Task.can_be_edited`: `status not in [COMPLETED, CANCELLED]`. -/
def Task.can_be_edited (t : Task) : Bool :=
  !(decide (t.status = .completed) || decide (t.status = .cancelled))

/-! ## Status transition validation
(`app/services/task_service.py`, `_validate_status_transition`) -/

/-- The `valid_transitions` dict of `_validate_status_transition`. -/
def valid_transitions : TaskStatus → List TaskStatus
  | .pending => [.in_progress, .cancelled]
  | .in_progress => [.completed, .pending, .cancelled]
  | .completed => []
  | .cancelled => [.pending]

/-- Python `_validate_status_transition`: raises `TaskValidationError` with the
formatted message when `new_status` is not among the valid transitions
of `current_status`; returns normally otherwise. -/
def validate_status_transition (current_status new_status : TaskStatus) :
    Except String Unit :=
  if new_status ∉ valid_transitions current_status then
    .error ("Invalid status transition from " ++ current_status.value
      ++ " to " ++ new_status.value)
  else
    .ok ()

/-- The status branch of `_update_task_fields`: validate the transition
first, and only then assign the new status (calling `mark_as_completed`
when the new status is `completed`). A raised validation error
propagates before any assignment, so the returned task equals the input
task in that case, paired with the error message. -/
def apply_status_update (t : Task) (new_status : TaskStatus) (now : Int) :
    Task × Option String :=
  match validate_status_transition t.status new_status with
  | .error e => (t, some e)
  | .ok _ =>
    let t' := { t with status := new_status }
    if new_status = .completed then (t'.mark_as_completed now, none) else (t', none)

/-! ## Statistics aggregator
(`app/services/task_service.py`, `_calculate_user_stats`) -/

/-- The stats dict produced by `_calculate_user_stats`. -/
structure TaskStats where
  total_tasks : Nat
  pending_tasks : Nat
  in_progress_tasks : Nat
  completed_tasks : Nat
  cancelled_tasks : Nat
  overdue_tasks : Nat
  high_priority_tasks : Nat
deriving DecidableEq, Repr

/-- Python `_calculate_user_stats`: each field is a `sum(1 for t in tasks if p t)`
over the input list, i.e. `List.countP`. -/
def calculate_user_stats (tasks : List Task) (now : Int) : TaskStats :=
  { total_tasks := tasks.length
    pending_tasks := tasks.countP (fun t => decide (t.status = .pending))
    in_progress_tasks := tasks.countP (fun t => decide (t.status = .in_progress))
    completed_tasks := tasks.countP (fun t => decide (t.status = .completed))
    cancelled_tasks := tasks.countP (fun t => decide (t.status = .cancelled))
    overdue_tasks := tasks.countP (fun t => t.is_overdue now)
    high_priority_tasks :=
      tasks.countP (fun t => decide (t.priority = .high) || decide (t.priority = .urgent)) }

/-! ## User model (`task_management_api/app/models/user.py`) -/

/-- Python `UserRole` enumeration from `app/models/user.py`. -/
inductive UserRole where
  | admin
  | manager
  | user
  | guest
deriving DecidableEq, Repr

/-- Python `UserStatus` enumeration from `app/models/user.py`. -/
inductive UserStatus where
  | active
  | inactive
  | suspended
deriving DecidableEq, Repr

/-- The `User` entity: one column per SQLAlchemy `Column` of
`app/models/user.py`. -/
structure User where
  id : Int
  username : String
  email : String
  full_name : String
  password_hash : String
  role : UserRole
  status : UserStatus
  created_at : Int
  updated_at : Option Int
  last_login : Option Int
  is_deleted : Bool
  email_verified : Bool
deriving DecidableEq, Repr

/-! ## Query-builder building blocks

SQL `ilike '%term%'` becomes a case-insensitive substring test; a
`NULL` column never matches. `sort_order.lower()` becomes a
character-wise lowering. -/

/-- The characters of a string, lowercased. -/
def lowerChars (s : String) : List Char :=
  s.data.map Char.toLower

/-- Case-insensitive substring containment, the semantics of the
`column.ilike(f"%term%")` filters. -/
def ilike_contains (field term : String) : Bool :=
  decide (List.IsInfix (lowerChars term) (lowerChars field))

/-- Python `ilike` applied to a nullable column: a SQL `NULL` never matches. -/
def opt_ilike (field : Option String) (term : String) : Bool :=
  match field with
  | none => false
  | some s => ilike_contains s term

/-- Character-wise `str.lower()`. -/
def str_lower (s : String) : String :=
  String.mk (s.data.map Char.toLower)

/-- Ascending order on a nullable column, `NULL` ordered first (SQLite
default `ORDER BY` placement of NULLs). -/
def optLeNullsFirst {α : Type} (le : α → α → Bool) : Option α → Option α → Bool
  | none, _ => true
  | some _, none => false
  | some a, some b => le a b

/-- Ascending lexicographic order on strings (SQL `ORDER BY` on a
varchar column), as a Bool. -/
def strLe (a b : String) : Bool :=
  !(decide (b < a))

/-- The name SQLAlchemy stores for a `TaskStatus` member (`Enum`
columns store the member name). -/
def TaskStatus.sqlName : TaskStatus → String
  | .pending => "PENDING"
  | .in_progress => "IN_PROGRESS"
  | .completed => "COMPLETED"
  | .cancelled => "CANCELLED"

/-- The name SQLAlchemy stores for a `TaskPriority` member. -/
def TaskPriority.sqlName : TaskPriority → String
  | .low => "LOW"
  | .medium => "MEDIUM"
  | .high => "HIGH"
  | .urgent => "URGENT"

/-- The name SQLAlchemy stores for a `UserRole` member. -/
def UserRole.sqlName : UserRole → String
  | .admin => "ADMIN"
  | .manager => "MANAGER"
  | .user => "USER"
  | .guest => "GUEST"

/-- The name SQLAlchemy stores for a `UserStatus` member. -/
def UserStatus.sqlName : UserStatus → String
  | .active => "ACTIVE"
  | .inactive => "INACTIVE"
  | .suspended => "SUSPENDED"

/-! ## Task repository pagination
(`app/repositories/task_repository.py`, `get_paginated`) -/

/-- The `filters` dict accepted by `TaskRepository.get_paginated`:
the keys the code reads with `filters.get(...)`. -/
structure TaskFilters where
  status : Option TaskStatus
  priority : Option TaskPriority
  assigned_to : Option String
  created_by : Option String
  search : Option String
deriving DecidableEq, Repr

/-- Python `if filters.get('status'): query.filter(Task.status == ...)`. An
enum value present in the dict is always truthy. -/
def filter_task_status (o : Option TaskStatus) (q : List Task) : List Task :=
  match o with
  | none => q
  | some s => q.filter (fun t => decide (t.status = s))

/-- Python `if filters.get('priority'): query.filter(Task.priority == ...)`. -/
def filter_task_priority (o : Option TaskPriority) (q : List Task) : List Task :=
  match o with
  | none => q
  | some p => q.filter (fun t => decide (t.priority = p))

/-- Python `if filters.get('assigned_to'): query.filter(Task.assigned_to == ...)`.
The Python truthiness test skips an empty string; SQL `NULL = v` is not
true, so unassigned tasks never match. -/
def filter_task_assigned_to (o : Option String) (q : List Task) : List Task :=
  match o with
  | none => q
  | some a => if a = "" then q else q.filter (fun t => decide (t.assigned_to = some a))

/-- Python `if filters.get('created_by'): query.filter(Task.created_by == ...)`. -/
def filter_task_created_by (o : Option String) (q : List Task) : List Task :=
  match o with
  | none => q
  | some c => if c = "" then q else q.filter (fun t => decide (t.created_by = c))

/-- Python `if filters.get('search'): query.filter(or_(title.ilike(...),
description.ilike(...)))`. -/
def filter_task_search (o : Option String) (q : List Task) : List Task :=
  match o with
  | none => q
  | some s =>
    if s = "" then q
    else q.filter (fun t => ilike_contains t.title s || opt_ilike t.description s)

/-- The filter block of `TaskRepository.get_paginated`, stages in the
code's order. -/
def apply_task_filters (f : TaskFilters) (q : List Task) : List Task :=
  filter_task_search f.search
    (filter_task_created_by f.created_by
      (filter_task_assigned_to f.assigned_to
        (filter_task_priority f.priority
          (filter_task_status f.status q))))

/-- Python `if filters:` — a `None` (or empty) filters argument skips the
whole filter block. -/
def run_task_filters : Option TaskFilters → List Task → List Task
  | none, q => q
  | some f, q => apply_task_filters f q

/-- The column names of the `Task` model: the attributes for which
`hasattr(Task, sort_by)` holds in the sorting branch. (Methods of the
class are outside this model: passing a method name to `order_by` is
not a meaningful query.) -/
def task_field_names : List String :=
  ["id", "title", "description", "status", "priority", "created_by",
   "assigned_to", "created_at", "updated_at", "due_date", "completed_at",
   "is_deleted"]

/-- Python `hasattr(Task, sort_by)` for column attributes. -/
def task_hasattr (sort_by : String) : Bool :=
  task_field_names.contains sort_by

/-- Ascending `ORDER BY` comparison on the named `Task` column. -/
def task_le_by (sort_by : String) (a b : Task) : Bool :=
  match sort_by with
  | "id" => decide (a.id ≤ b.id)
  | "title" => strLe a.title b.title
  | "description" => optLeNullsFirst strLe a.description b.description
  | "status" => strLe a.status.sqlName b.status.sqlName
  | "priority" => strLe a.priority.sqlName b.priority.sqlName
  | "created_by" => strLe a.created_by b.created_by
  | "assigned_to" => optLeNullsFirst strLe a.assigned_to b.assigned_to
  | "created_at" => decide (a.created_at ≤ b.created_at)
  | "updated_at" => optLeNullsFirst (fun x y => decide (x ≤ y)) a.updated_at b.updated_at
  | "due_date" => optLeNullsFirst (fun x y => decide (x ≤ y)) a.due_date b.due_date
  | "completed_at" => optLeNullsFirst (fun x y => decide (x ≤ y)) a.completed_at b.completed_at
  | "is_deleted" => !a.is_deleted || b.is_deleted
  | _ => true

/-- The sorting branch body: `order_by(desc(col))` when
`sort_order.lower() == 'desc'`, `order_by(asc(col))` otherwise. -/
def order_task_query (sort_by sort_order : String) (q : List Task) : List Task :=
  if str_lower sort_order = "desc" then
    List.insertionSort (fun a b => task_le_by sort_by b a = true) q
  else
    List.insertionSort (fun a b => task_le_by sort_by a b = true) q

/-- Python `TaskRepository.get_paginated`: exclude soft-deleted rows, apply
the filter block, count, sort when `hasattr(Task, sort_by)`, then
`offset((page - 1) * size).limit(size)`. Returns `(tasks, total_count)`. -/
def get_paginated (db : List Task) (page size : Int)
    (filters : Option TaskFilters) (sort_by sort_order : String) :
    List Task × Nat :=
  let query := db.filter (fun t => !t.is_deleted)
  let query := run_task_filters filters query
  let total_count := query.length
  let query :=
    if task_hasattr sort_by then order_task_query sort_by sort_order query else query
  let offset := (page - 1) * size
  ((query.drop offset.toNat).take size.toNat, total_count)

/-! ## User repository pagination
(`app/repositories/user_repository.py`, `get_paginated`) -/

/-- The `filters` dict accepted by `UserRepository.get_paginated`. -/
structure UserFilters where
  role : Option UserRole
  status : Option UserStatus
  search : Option String
deriving DecidableEq, Repr

/-- Python `if filters.get('role'): query.filter(User.role == ...)`. -/
def filter_user_role (o : Option UserRole) (q : List User) : List User :=
  match o with
  | none => q
  | some r => q.filter (fun u => decide (u.role = r))

/-- Python `if filters.get('status'): query.filter(User.status == ...)`. -/
def filter_user_status (o : Option UserStatus) (q : List User) : List User :=
  match o with
  | none => q
  | some s => q.filter (fun u => decide (u.status = s))

/-- Python `if filters.get('search'): query.filter(or_(username.ilike(...),
full_name.ilike(...), email.ilike(...)))`. -/
def filter_user_search (o : Option String) (q : List User) : List User :=
  match o with
  | none => q
  | some s =>
    if s = "" then q
    else q.filter (fun u =>
      ilike_contains u.username s || ilike_contains u.full_name s
        || ilike_contains u.email s)

/-- The filter block of `UserRepository.get_paginated`. -/
def apply_user_filters (f : UserFilters) (q : List User) : List User :=
  filter_user_search f.search
    (filter_user_status f.status
      (filter_user_role f.role q))

/-- Python `if filters:` for the user repository. -/
def run_user_filters : Option UserFilters → List User → List User
  | none, q => q
  | some f, q => apply_user_filters f q

/-- The column names of the `User` model, for `hasattr(User, sort_by)`. -/
def user_field_names : List String :=
  ["id", "username", "email", "full_name", "password_hash", "role",
   "status", "created_at", "updated_at", "last_login", "is_deleted",
   "email_verified"]

/-- Python `hasattr(User, sort_by)` for column attributes. -/
def user_hasattr (sort_by : String) : Bool :=
  user_field_names.contains sort_by

/-- Ascending `ORDER BY` comparison on the named `User` column. -/
def user_le_by (sort_by : String) (a b : User) : Bool :=
  match sort_by with
  | "id" => decide (a.id ≤ b.id)
  | "username" => strLe a.username b.username
  | "email" => strLe a.email b.email
  | "full_name" => strLe a.full_name b.full_name
  | "password_hash" => strLe a.password_hash b.password_hash
  | "role" => strLe a.role.sqlName b.role.sqlName
  | "status" => strLe a.status.sqlName b.status.sqlName
  | "created_at" => decide (a.created_at ≤ b.created_at)
  | "updated_at" => optLeNullsFirst (fun x y => decide (x ≤ y)) a.updated_at b.updated_at
  | "last_login" => optLeNullsFirst (fun x y => decide (x ≤ y)) a.last_login b.last_login
  | "is_deleted" => !a.is_deleted || b.is_deleted
  | "email_verified" => !a.email_verified || b.email_verified
  | _ => true

/-- The sorting branch of `UserRepository.get_paginated`. -/
def order_user_query (sort_by sort_order : String) (q : List User) : List User :=
  if str_lower sort_order = "desc" then
    List.insertionSort (fun a b => user_le_by sort_by b a = true) q
  else
    List.insertionSort (fun a b => user_le_by sort_by a b = true) q

/-- Python `UserRepository.get_paginated`: same pipeline shape as the task
repository. Returns `(users, total_count)`. -/
def user_get_paginated (db : List User) (page size : Int)
    (filters : Option UserFilters) (sort_by sort_order : String) :
    List User × Nat :=
  let query := db.filter (fun u => !u.is_deleted)
  let query := run_user_filters filters query
  let total_count := query.length
  let query :=
    if user_hasattr sort_by then order_user_query sort_by sort_order query else query
  let offset := (page - 1) * size
  ((query.drop offset.toNat).take size.toNat, total_count)

/-! ## DTO validation (`app/dto/task_dto.py`, `TaskQueryParams`) -/

/-- The pydantic field constraints of `TaskQueryParams`:
`page: Field(ge=1)`, `size: Field(ge=1, le=100)`,
`sort_order: Field(pattern="^(asc|desc)$")`. Construction raises a
`ValidationError` exactly when this predicate is false. -/
def task_query_params_accepted (page size : Int) (sort_order : String) : Bool :=
  decide (1 ≤ page) && (decide (1 ≤ size) && decide (size ≤ 100))
    && (decide (sort_order = "asc") || decide (sort_order = "desc"))

/-! ## Bulk status update
(`app/repositories/task_repository.py`, `bulk_update_status`) -/

/-- Python `TaskRepository.bulk_update_status`: a single SQL `UPDATE` setting
`status = new_status` on every row with `id IN task_ids AND NOT
is_deleted`; returns the updated rows alongside the matched-row count. -/
def bulk_update_status (db : List Task) (task_ids : List Int)
    (new_status : TaskStatus) : List Task × Nat :=
  (db.map (fun t =>
      if decide (t.id ∈ task_ids) && !t.is_deleted then { t with status := new_status } else t),
   db.countP (fun t => decide (t.id ∈ task_ids) && !t.is_deleted))

/-! ## Flask task-item service
(`Flask_API/models/task_item_model.py` and
`Flask_API/services/task_item_service.py`) -/

/-- The `TaskItem` row of `task_item_model.py`. -/
structure TaskItem where
  id : Int
  title : Option String
  description : Option String
  is_completed : Bool
  order : Int
  created_at : Int
  updated_at : Int
  completed_at : Option Int
  task_id : Option Int
deriving DecidableEq, Repr

/-- The keyword arguments `update_task_item` may receive: one entry per
settable column (`id` is excluded by the `key != 'id'` guard; unknown
keys fail `hasattr` and are skipped, so they do not appear here). An
outer `none` means the key is absent from `kwargs`. -/
structure TaskItemKwargs where
  title : Option (Option String)
  description : Option (Option String)
  is_completed : Option Bool
  order : Option Int
  created_at : Option Int
  updated_at : Option Int
  completed_at : Option (Option Int)
  task_id : Option (Option Int)
deriving DecidableEq, Repr

/-- The empty `kwargs` dict. -/
def TaskItemKwargs.empty : TaskItemKwargs :=
  ⟨none, none, none, none, none, none, none, none⟩

/-- Python `TaskItemService.create_task_item`: builds a row with the given
fields; `is_completed` defaults to `False` and `completed_at` to
`NULL`; `created_at`/`updated_at` default to `datetime.utcnow()`. -/
def create_task_item (id : Int) (title : Option String) (task_id : Option Int)
    (description : Option String) (order : Int) (now : Int) : TaskItem :=
  { id := id
    title := title
    description := description
    is_completed := false
    order := order
    created_at := now
    updated_at := now
    completed_at := none
    task_id := task_id }

/-- Python `TaskItemService.update_task_item` on a found item: `setattr` each
present kwarg verbatim, nothing else. -/
def update_task_item (it : TaskItem) (kw : TaskItemKwargs) : TaskItem :=
  { id := it.id
    title := kw.title.getD it.title
    description := kw.description.getD it.description
    is_completed := kw.is_completed.getD it.is_completed
    order := kw.order.getD it.order
    created_at := kw.created_at.getD it.created_at
    updated_at := kw.updated_at.getD it.updated_at
    completed_at := kw.completed_at.getD it.completed_at
    task_id := kw.task_id.getD it.task_id }

/-- Python `TaskItemService.complete_task_item` on a found item. -/
def complete_task_item (it : TaskItem) (now : Int) : TaskItem :=
  { it with is_completed := true, completed_at := some now }

/-- Python `TaskItemService.uncomplete_task_item` on a found item. -/
def uncomplete_task_item (it : TaskItem) : TaskItem :=
  { it with is_completed := false, completed_at := none }

/-- The flag/timestamp consistency invariant on a task item:
`completed_at` is non-null exactly when `is_completed` is true. -/
def completed_consistent (it : TaskItem) : Prop :=
  it.completed_at.isSome = it.is_completed

/-! ## Concrete entities used in witnesses and counterexamples -/

/-- A concrete completed task. -/
def task_completed_a : Task :=
  { id := 1, title := "t", description := none, status := .completed,
    priority := .medium, created_by := "alice", assigned_to := none,
    created_at := 0, updated_at := none, due_date := none,
    completed_at := some 1, is_deleted := false }

/-- A concrete pending task created at time 20. -/
def task_created_late : Task :=
  { id := 1, title := "a", description := none, status := .pending,
    priority := .medium, created_by := "u", assigned_to := none,
    created_at := 20, updated_at := none, due_date := none,
    completed_at := none, is_deleted := false }

/-- A concrete pending task created at time 10. -/
def task_created_early : Task :=
  { task_created_late with id := 2, created_at := 10 }

/-- A concrete soft-deleted task. -/
def task_deleted_a : Task :=
  { task_created_late with id := 9, is_deleted := true }

/-- Scenario task T1: priority high, due in the past, pending. -/
def stats_t1 : Task :=
  { id := 1, title := "T1", description := none, status := .pending,
    priority := .high, created_by := "u", assigned_to := none,
    created_at := 0, updated_at := none, due_date := some 5,
    completed_at := none, is_deleted := false }

/-- Scenario task T2: priority low, due in the future, pending. -/
def stats_t2 : Task :=
  { stats_t1 with id := 2, title := "T2", priority := .low, due_date := some 15 }

/-- Scenario task T3: priority urgent, due in the past, completed. -/
def stats_t3 : Task :=
  { stats_t1 with id := 3, title := "T3", status := .completed, priority := .urgent, completed_at := some 6 }

/-- A concrete fresh task item: not completed, no completion time. -/
def item_fresh : TaskItem :=
  { id := 1, title := some "i", description := none, is_completed := false,
    order := 0, created_at := 0, updated_at := 0, completed_at := none,
    task_id := some 1 }

/-- Kwargs that set only `is_completed = True`. -/
def kw_set_completed : TaskItemKwargs :=
  { TaskItemKwargs.empty with is_completed := some true }

end PyPoc

namespace PyPoc

/-! ## Shared lemmas about the query pipelines -/

/-- The status stage only removes elements. -/
theorem mem_of_filter_task_status {o : Option TaskStatus} {q : List Task} {t : Task}
    (h : t ∈ filter_task_status o q) : t ∈ q := by
  cases o with
  | none => exact h
  | some s => exact List.mem_of_mem_filter h

/-- The priority stage only removes elements. -/
theorem mem_of_filter_task_priority {o : Option TaskPriority} {q : List Task} {t : Task}
    (h : t ∈ filter_task_priority o q) : t ∈ q := by
  cases o with
  | none => exact h
  | some p => exact List.mem_of_mem_filter h

/-- The assigned_to stage only removes elements. -/
theorem mem_of_filter_task_assigned_to {o : Option String} {q : List Task} {t : Task}
    (h : t ∈ filter_task_assigned_to o q) : t ∈ q := by
  cases o with
  | none => exact h
  | some a =>
    by_cases ha : a = ""
    · rw [filter_task_assigned_to, if_pos ha] at h; exact h
    · rw [filter_task_assigned_to, if_neg ha] at h; exact List.mem_of_mem_filter h

/-- The created_by stage only removes elements. -/
theorem mem_of_filter_task_created_by {o : Option String} {q : List Task} {t : Task}
    (h : t ∈ filter_task_created_by o q) : t ∈ q := by
  cases o with
  | none => exact h
  | some c =>
    by_cases hc : c = ""
    · rw [filter_task_created_by, if_pos hc] at h; exact h
    · rw [filter_task_created_by, if_neg hc] at h; exact List.mem_of_mem_filter h

/-- The search stage only removes elements. -/
theorem mem_of_filter_task_search {o : Option String} {q : List Task} {t : Task}
    (h : t ∈ filter_task_search o q) : t ∈ q := by
  cases o with
  | none => exact h
  | some s =>
    by_cases hs : s = ""
    · rw [filter_task_search, if_pos hs] at h; exact h
    · rw [filter_task_search, if_neg hs] at h; exact List.mem_of_mem_filter h

/-- The whole task filter block only removes elements: membership in
the output implies membership in the input. -/
theorem mem_of_apply_task_filters {f : TaskFilters} {q : List Task} {t : Task}
    (h : t ∈ apply_task_filters f q) : t ∈ q :=
  mem_of_filter_task_status
    (mem_of_filter_task_priority
      (mem_of_filter_task_assigned_to
        (mem_of_filter_task_created_by
          (mem_of_filter_task_search h))))

/-- The whole task filter block only removes elements. -/
theorem mem_of_run_task_filters {f : Option TaskFilters} {q : List Task} {t : Task}
    (h : t ∈ run_task_filters f q) : t ∈ q := by
  cases f with
  | none => exact h
  | some f => exact mem_of_apply_task_filters h

/-- Sorting a task query does not change its members. -/
theorem mem_order_task_query {sb so : String} {q : List Task} {t : Task} :
    t ∈ order_task_query sb so q ↔ t ∈ q := by
  unfold order_task_query
  split <;> exact List.mem_insertionSort _

/-- Sorting a task query does not change its length. -/
theorem length_order_task_query (sb so : String) (q : List Task) :
    (order_task_query sb so q).length = q.length := by
  unfold order_task_query
  split <;> exact List.length_insertionSort _ q

/-- The role stage only removes elements. -/
theorem mem_of_filter_user_role {o : Option UserRole} {q : List User} {u : User}
    (h : u ∈ filter_user_role o q) : u ∈ q := by
  cases o with
  | none => exact h
  | some r => exact List.mem_of_mem_filter h

/-- The user status stage only removes elements. -/
theorem mem_of_filter_user_status {o : Option UserStatus} {q : List User} {u : User}
    (h : u ∈ filter_user_status o q) : u ∈ q := by
  cases o with
  | none => exact h
  | some s => exact List.mem_of_mem_filter h

/-- The user search stage only removes elements. -/
theorem mem_of_filter_user_search {o : Option String} {q : List User} {u : User}
    (h : u ∈ filter_user_search o q) : u ∈ q := by
  cases o with
  | none => exact h
  | some s =>
    by_cases hs : s = ""
    · rw [filter_user_search, if_pos hs] at h; exact h
    · rw [filter_user_search, if_neg hs] at h; exact List.mem_of_mem_filter h

/-- The whole user filter block only removes elements. -/
theorem mem_of_apply_user_filters {f : UserFilters} {q : List User} {u : User}
    (h : u ∈ apply_user_filters f q) : u ∈ q :=
  mem_of_filter_user_role
    (mem_of_filter_user_status
      (mem_of_filter_user_search h))

/-- The whole user filter block only removes elements. -/
theorem mem_of_run_user_filters {f : Option UserFilters} {q : List User} {u : User}
    (h : u ∈ run_user_filters f q) : u ∈ q := by
  cases f with
  | none => exact h
  | some f => exact mem_of_apply_user_filters h

/-- Sorting a user query does not change its members. -/
theorem mem_order_user_query {sb so : String} {q : List User} {u : User} :
    u ∈ order_user_query sb so q ↔ u ∈ q := by
  unfold order_user_query
  split <;> exact List.mem_insertionSort _

/-- Sorting a user query does not change its length. -/
theorem length_order_user_query (sb so : String) (q : List User) :
    (order_user_query sb so q).length = q.length := by
  unfold order_user_query
  split <;> exact List.length_insertionSort _ q

/-! ## Claim theorems -/

/-- Claim C1: `_validate_status_transition` accepts a (from, to) pair
iff it is in the table {pending→in_progress, pending→cancelled,
in_progress→completed, in_progress→pending, in_progress→cancelled,
cancelled→pending}; every other pair raises a validation error whose
message names the attempted from and to statuses, and the service's
status-update step leaves the task unchanged in that case. -/
theorem c1_transition_table (cur new : TaskStatus) :
    (validate_status_transition cur new = .ok () ↔
      ((cur = .pending ∧ new = .in_progress) ∨
       (cur = .pending ∧ new = .cancelled) ∨
       (cur = .in_progress ∧ new = .completed) ∨
       (cur = .in_progress ∧ new = .pending) ∨
       (cur = .in_progress ∧ new = .cancelled) ∨
       (cur = .cancelled ∧ new = .pending))) ∧
    (validate_status_transition cur new ≠ .ok () →
      validate_status_transition cur new =
        .error ("Invalid status transition from " ++ cur.value
          ++ " to " ++ new.value)) ∧
    (∀ (t : Task) (now : Int), t.status = cur →
      validate_status_transition cur new ≠ .ok () →
      apply_status_update t new now =
        (t, some ("Invalid status transition from " ++ cur.value
          ++ " to " ++ new.value))) := by
  refine ⟨?_, ?_, ?_⟩
  · cases cur <;> cases new <;> decide
  · cases cur <;> cases new <;> decide
  · intro t now hst hne
    have herr : validate_status_transition cur new =
        .error ("Invalid status transition from " ++ cur.value
          ++ " to " ++ new.value) := by
      revert hne
      cases cur <;> cases new <;> decide
    simp [apply_status_update, hst, herr]

/-- Witness for C1 at the concrete pair completed→pending on a
concrete task. -/
theorem c1_transition_table_witness :
    apply_status_update task_completed_a .pending 7 =
      (task_completed_a, some ("Invalid status transition from "
        ++ TaskStatus.completed.value ++ " to " ++ TaskStatus.pending.value)) :=
  (c1_transition_table .completed .pending).2.2 task_completed_a 7 rfl (by decide)

/-- Claim C2: `mark_as_completed()` sets status to `completed` and
`completed_at` to the current time for every task in every status,
totally (it never raises and never consults the transition table), and
touches no other field. -/
theorem c2_mark_as_completed_unconditional (t : Task) (now : Int) :
    (t.mark_as_completed now).status = .completed ∧
    (t.mark_as_completed now).completed_at = some now ∧
    (t.mark_as_completed now).id = t.id ∧
    (t.mark_as_completed now).title = t.title ∧
    (t.mark_as_completed now).description = t.description ∧
    (t.mark_as_completed now).priority = t.priority ∧
    (t.mark_as_completed now).created_by = t.created_by ∧
    (t.mark_as_completed now).assigned_to = t.assigned_to ∧
    (t.mark_as_completed now).created_at = t.created_at ∧
    (t.mark_as_completed now).updated_at = t.updated_at ∧
    (t.mark_as_completed now).due_date = t.due_date ∧
    (t.mark_as_completed now).is_deleted = t.is_deleted :=
  ⟨rfl, rfl, rfl, rfl, rfl, rfl, rfl, rfl, rfl, rfl, rfl, rfl⟩

/-- Counterexample to claim C3: with the unknown sort field `"bogus"`
and `sort_order = "asc"`, `get_paginated` keeps the store's base order
`[created_at 20, created_at 10]` instead of falling back to ascending
`created_at` order: the sorting branch is skipped entirely when
`hasattr` fails, so no `created_at` fallback is applied. -/
theorem c3_counterexample :
    (get_paginated [task_created_late, task_created_early] 1 10 none "bogus" "asc").1
      = [task_created_late, task_created_early] ∧
    order_task_query "created_at" "asc" [task_created_late, task_created_early]
      = [task_created_early, task_created_late] ∧
    task_created_late.created_at = 20 ∧
    task_created_early.created_at = 10 ∧
    ([task_created_late, task_created_early] : List Task)
      ≠ [task_created_early, task_created_late] := by
  decide

/-- Claim C3 as amended: for every `sort_by` that is not a field of the
entity, `get_paginated` does not fail, but it applies no ordering at
all (rather than falling back to `created_at`): the returned items are
the filtered, soft-delete-excluded collection in its underlying order,
windowed by offset/limit — for both the task and the user query
builders. -/
theorem c3_amended_no_sort_fallback (db : List Task) (udb : List User)
    (page size : Int) (f : Option TaskFilters) (uf : Option UserFilters)
    (sb so : String)
    (ht : task_hasattr sb = false) (hu : user_hasattr sb = false) :
    (get_paginated db page size f sb so).1
      = ((run_task_filters f (db.filter (fun t => !t.is_deleted))).drop
          ((page - 1) * size).toNat).take size.toNat ∧
    (user_get_paginated udb page size uf sb so).1
      = ((run_user_filters uf (udb.filter (fun u => !u.is_deleted))).drop
          ((page - 1) * size).toNat).take size.toNat := by
  constructor
  · simp [get_paginated, ht]
  · simp [user_get_paginated, hu]

/-- Witness for the amended C3 at `sort_by = "bogus"` on concrete
collections. -/
theorem c3_amended_no_sort_fallback_witness :
    (get_paginated [task_created_late, task_created_early] 1 10 none "bogus" "asc").1
      = ((run_task_filters none
          (([task_created_late, task_created_early]).filter (fun t => !t.is_deleted))).drop
          (((1 : Int) - 1) * 10).toNat).take (10 : Int).toNat ∧
    (user_get_paginated [] 1 10 none "bogus" "asc").1
      = ((run_user_filters none
          (([] : List User).filter (fun u => !u.is_deleted))).drop
          (((1 : Int) - 1) * 10).toNat).take (10 : Int).toNat :=
  c3_amended_no_sort_fallback [task_created_late, task_created_early] [] 1 10
    none none "bogus" "asc" (by decide) (by decide)

/-- Claim C4: `total_count` equals the size of the filtered,
soft-delete-excluded collection before any offset/limit; it is the same
for every page number under the same filters; and a page whose offset
is at or beyond `total_count` returns an empty items list rather than
an error. -/
theorem c4_total_count_before_pagination (db : List Task) (page page2 size : Int)
    (f : Option TaskFilters) (sb so : String) :
    (get_paginated db page size f sb so).2
      = (run_task_filters f (db.filter (fun t => !t.is_deleted))).length ∧
    (get_paginated db page size f sb so).2 = (get_paginated db page2 size f sb so).2 ∧
    ((get_paginated db page size f sb so).2 ≤ ((page - 1) * size).toNat →
      (get_paginated db page size f sb so).1 = []) := by
  refine ⟨rfl, rfl, ?_⟩
  intro h
  simp only [get_paginated] at h ⊢
  rw [List.drop_eq_nil_of_le, List.take_nil]
  split
  · rw [length_order_task_query]; exact h
  · exact h

/-- Witness for C4 at a page beyond the total count: one matching task,
page 3 of size 10. -/
theorem c4_total_count_before_pagination_witness :
    (get_paginated [task_created_late] 3 10 none "created_at" "asc").1 = [] :=
  (c4_total_count_before_pagination [task_created_late] 3 3 10 none
    "created_at" "asc").2.2 (by decide)

/-- Claim C5: no soft-deleted entity ever appears in the items returned
by `get_paginated` and none is counted in `total_count` (the counted
collection contains only non-deleted entities), for both the task and
the user query builders. -/
theorem c5_soft_deleted_excluded (db : List Task) (udb : List User)
    (page size : Int) (f : Option TaskFilters) (uf : Option UserFilters)
    (sb so : String) :
    (∀ t ∈ (get_paginated db page size f sb so).1, t.is_deleted = false) ∧
    (get_paginated db page size f sb so).2
      = (run_task_filters f (db.filter (fun t => !t.is_deleted))).length ∧
    (∀ t ∈ run_task_filters f (db.filter (fun t => !t.is_deleted)),
      t.is_deleted = false) ∧
    (∀ u ∈ (user_get_paginated udb page size uf sb so).1, u.is_deleted = false) ∧
    (user_get_paginated udb page size uf sb so).2
      = (run_user_filters uf (udb.filter (fun u => !u.is_deleted))).length ∧
    (∀ u ∈ run_user_filters uf (udb.filter (fun u => !u.is_deleted)),
      u.is_deleted = false) := by
  have htask : ∀ t ∈ run_task_filters f (db.filter (fun t => !t.is_deleted)),
      t.is_deleted = false := by
    intro t ht
    have hmem := mem_of_run_task_filters ht
    have hprop := (List.mem_filter.mp hmem).2
    simpa using hprop
  have huser : ∀ u ∈ run_user_filters uf (udb.filter (fun u => !u.is_deleted)),
      u.is_deleted = false := by
    intro u hu
    have hmem := mem_of_run_user_filters hu
    have hprop := (List.mem_filter.mp hmem).2
    simpa using hprop
  refine ⟨?_, rfl, htask, ?_, rfl, huser⟩
  · intro t ht
    simp only [get_paginated] at ht
    have ht' := List.mem_of_mem_drop (List.mem_of_mem_take ht)
    apply htask
    by_cases hh : task_hasattr sb = true
    · rw [if_pos hh] at ht'
      exact mem_order_task_query.mp ht'
    · rwa [if_neg hh] at ht'
  · intro u hu
    simp only [user_get_paginated] at hu
    have hu' := List.mem_of_mem_drop (List.mem_of_mem_take hu)
    apply huser
    by_cases hh : user_hasattr sb = true
    · rw [if_pos hh] at hu'
      exact mem_order_user_query.mp hu'
    · rwa [if_neg hh] at hu'

/-- Witness for C5 on a concrete collection holding a soft-deleted
task: the surviving member is not deleted and the total count matches
the filtered set. -/
theorem c5_soft_deleted_excluded_witness :
    task_created_late.is_deleted = false ∧
    (get_paginated [task_deleted_a, task_created_late] 1 10 none
      "created_at" "asc").2
      = (run_task_filters none
          (([task_deleted_a, task_created_late]).filter (fun t => !t.is_deleted))).length := by
  constructor
  · exact (c5_soft_deleted_excluded [task_deleted_a, task_created_late] [] 1 10
      none none "created_at" "asc").1 task_created_late (by decide)
  · exact (c5_soft_deleted_excluded [task_deleted_a, task_created_late] [] 1 10
      none none "created_at" "asc").2.1

/-- Claim C6: the DTO layer accepts the paging parameters exactly when
`page ≥ 1`, `size` is in 1..100, and `sort_order` is the exact string
`"asc"` or `"desc"`; in particular `page = 0` and
`sort_order = "upwards"` are validation errors. -/
theorem c6_query_params_validation (page size : Int) (so : String) :
    (task_query_params_accepted page size so = true ↔
      (1 ≤ page ∧ 1 ≤ size ∧ size ≤ 100 ∧ (so = "asc" ∨ so = "desc"))) ∧
    task_query_params_accepted 0 10 "asc" = false ∧
    task_query_params_accepted 1 10 "upwards" = false ∧
    task_query_params_accepted 1 0 "asc" = false ∧
    task_query_params_accepted 1 101 "asc" = false ∧
    task_query_params_accepted 1 1 "asc" = true ∧
    task_query_params_accepted 1 100 "desc" = true := by
  refine ⟨?_, by decide, by decide, by decide, by decide, by decide, by decide⟩
  simp [task_query_params_accepted, and_assoc]

/-- Claim C7: `is_overdue()` is true iff `due_date` is set, earlier
than now, and the status is pending or in_progress; in particular it is
false for completed and cancelled tasks and when `due_date` is unset. -/
theorem c7_is_overdue_iff (t : Task) (now : Int) :
    t.is_overdue now = true ↔
      ∃ d, t.due_date = some d ∧ d < now ∧
        (t.status = .pending ∨ t.status = .in_progress) := by
  cases h : t.due_date with
  | none => simp [Task.is_overdue, h]
  | some d =>
    cases hs : t.status <;>
      simp [Task.is_overdue, h, hs]

/-- Claim C8: the statistics aggregator returns the length of the input
as `total` and a `countP` of the matching predicate for every other
field; it is all zeros on `[]`, and on the scenario tasks T1, T2, T3
(at now = 10, with 5 in the past and 15 in the future) it returns
total=3, pending=2, completed=1, overdue=1, high_priority=2. -/
theorem c8_calculate_user_stats (tasks : List Task) (now : Int) :
    (calculate_user_stats tasks now).total_tasks = tasks.length ∧
    (calculate_user_stats tasks now).pending_tasks
      = tasks.countP (fun t => decide (t.status = .pending)) ∧
    (calculate_user_stats tasks now).in_progress_tasks
      = tasks.countP (fun t => decide (t.status = .in_progress)) ∧
    (calculate_user_stats tasks now).completed_tasks
      = tasks.countP (fun t => decide (t.status = .completed)) ∧
    (calculate_user_stats tasks now).cancelled_tasks
      = tasks.countP (fun t => decide (t.status = .cancelled)) ∧
    (calculate_user_stats tasks now).overdue_tasks
      = tasks.countP (fun t => t.is_overdue now) ∧
    (calculate_user_stats tasks now).high_priority_tasks
      = tasks.countP (fun t => decide (t.priority = .high ∨ t.priority = .urgent)) ∧
    calculate_user_stats [] now =
      { total_tasks := 0, pending_tasks := 0, in_progress_tasks := 0,
        completed_tasks := 0, cancelled_tasks := 0, overdue_tasks := 0,
        high_priority_tasks := 0 } ∧
    calculate_user_stats [stats_t1, stats_t2, stats_t3] 10 =
      { total_tasks := 3, pending_tasks := 2, in_progress_tasks := 0,
        completed_tasks := 1, cancelled_tasks := 0, overdue_tasks := 1,
        high_priority_tasks := 2 } := by
  have hp : (fun t : Task => decide (t.priority = TaskPriority.high)
        || decide (t.priority = TaskPriority.urgent))
      = (fun t : Task => decide (t.priority = TaskPriority.high
        ∨ t.priority = TaskPriority.urgent)) := by
    funext t
    cases hpr : t.priority <;> simp [hpr]
  refine ⟨rfl, rfl, rfl, rfl, rfl, rfl, ?_, rfl, by decide⟩
  simp only [calculate_user_stats, hp]

/-- Counterexample to claim C9: the generic field update path breaks
the flag/timestamp invariant. Starting from a consistent item,
`update_task_item` with `is_completed = True` in the kwargs sets the
flag verbatim but leaves `completed_at` null. -/
theorem c9_counterexample :
    completed_consistent item_fresh ∧
    (update_task_item item_fresh kw_set_completed).is_completed = true ∧
    (update_task_item item_fresh kw_set_completed).completed_at = none ∧
    ¬ completed_consistent (update_task_item item_fresh kw_set_completed) := by
  refine ⟨rfl, rfl, rfl, ?_⟩
  intro h
  exact Bool.noConfusion h

/-- Claim C9 as amended: creation establishes the flag/timestamp
invariant (`is_completed = False`, `completed_at = NULL`), and the
dedicated complete/un-complete operations maintain it (completing
stamps `completed_at`, un-completing clears it); the generic
`update_task_item` preserves it only when its kwargs touch neither
`is_completed` nor `completed_at` — it sets fields verbatim and does
not auto-manage `completed_at`, so passing `is_completed` directly can
leave the flag and the timestamp inconsistent. -/
theorem c9_amended_completed_at_invariant (it : TaskItem) (now : Int) (i : Int)
    (ti : Option String) (tk : Option Int) (d : Option String) (o : Int)
    (kw : TaskItemKwargs)
    (hic : kw.is_completed = none) (hca : kw.completed_at = none)
    (hit : completed_consistent it) :
    completed_consistent (create_task_item i ti tk d o now) ∧
    completed_consistent (complete_task_item it now) ∧
    completed_consistent (uncomplete_task_item it) ∧
    completed_consistent (update_task_item it kw) := by
  refine ⟨rfl, rfl, rfl, ?_⟩
  simpa [completed_consistent, update_task_item, hic, hca] using hit

/-- Witness for the amended C9 at concrete inputs. -/
theorem c9_amended_completed_at_invariant_witness :
    completed_consistent (create_task_item 1 (some "i") (some 1) none 0 5) ∧
    completed_consistent (complete_task_item item_fresh 5) ∧
    completed_consistent (uncomplete_task_item item_fresh) ∧
    completed_consistent (update_task_item item_fresh TaskItemKwargs.empty) :=
  c9_amended_completed_at_invariant item_fresh 5 1 (some "i") (some 1) none 0
    TaskItemKwargs.empty rfl rfl rfl

/-- Claim C10: `bulk_update_status` sets the status of every non-deleted
task whose id is in the list to the target status — with no
transition-table validation, so any current status (including
completed) is overwritten — and leaves every other task, including
soft-deleted ones, unchanged; the returned count is the number of
matched rows. -/
theorem c10_bulk_update_status_unvalidated (db : List Task) (ids : List Int)
    (ns : TaskStatus) (i : Nat) (h : i < db.length) :
    (bulk_update_status db ids ns).1.length = db.length ∧
    (bulk_update_status db ids ns).2
      = db.countP (fun t => decide (t.id ∈ ids) && !t.is_deleted) ∧
    ∀ h2 : i < (bulk_update_status db ids ns).1.length,
      (((db.get ⟨i, h⟩).id ∈ ids ∧ (db.get ⟨i, h⟩).is_deleted = false) →
        (bulk_update_status db ids ns).1.get ⟨i, h2⟩
          = { db.get ⟨i, h⟩ with status := ns }) ∧
      (¬ ((db.get ⟨i, h⟩).id ∈ ids ∧ (db.get ⟨i, h⟩).is_deleted = false) →
        (bulk_update_status db ids ns).1.get ⟨i, h2⟩ = db.get ⟨i, h⟩) := by
  refine ⟨by simp [bulk_update_status], rfl, ?_⟩
  intro h2
  constructor
  · intro hc
    simp only [List.get_eq_getElem] at hc ⊢
    simp only [bulk_update_status, List.getElem_map]
    rw [if_pos]
    simp [hc.1, hc.2]
  · intro hc
    simp only [List.get_eq_getElem] at hc ⊢
    simp only [bulk_update_status, List.getElem_map]
    rw [if_neg]
    intro hcond
    simp only [Bool.and_eq_true, decide_eq_true_iff, Bool.not_eq_true'] at hcond
    exact hc ⟨hcond.1, hcond.2⟩

/-- Witness for C10: a completed task is moved straight to pending by
the bulk update. -/
theorem c10_bulk_update_status_unvalidated_witness :
    (bulk_update_status [task_completed_a] [1] .pending).1.get ⟨0, by decide⟩
      = { task_completed_a with status := TaskStatus.pending } :=
  ((c10_bulk_update_status_unvalidated [task_completed_a] [1] .pending 0
    (by decide)).2.2 (by decide)).1 (by decide)

end PyPoc
